import Mathlib

/-!
Verification development for the dolfin_dg DG weak-form generator
(`dolfin_dg/operators.py`, `dolfin_dg/dolfinx/nls.py`) and its unit test
`test/unit/test_dg_form.py`.  Symbolic UFL objects (boundary regions,
prescribed functions, measures, forms) are abstracted as identifiers;
numeric flux algebra is carried out over `ℚ`; the external dolfinx/PETSc
assembly kernels are abstracted as parameter functions, with the one
documented commitment that assembly kernels accumulate into (rather than
overwrite) their output container.
-/

namespace DolfinDG

/-! ### Python-level error values -/

/-- Errors a modelled Python call can raise.  A bare `assert` statement
raises `AssertionError` with no message; `TypeError` carries its message
(the dynamic `%s` payload of the source format strings is elided). -/
inductive PyErr where
  | assertionError
  | typeError (msg : String)
  | unboundLocalError (nm : String)
  | indexError
  deriving DecidableEq

/-- Whether an error is a `TypeError`. -/
def PyErr.isTypeError : PyErr → Bool
  | PyErr.typeError _ => true
  | _ => false

/-! ### Boundary conditions (operators.py lines 11-44)

`DGBC` is the base class; `DGDirichletBC`, `DGNeumannBC` and
`DGAdiabticWallBC` each subclass `DGBC` directly (no subclass relation
among the three).  The boundary-region selector and the prescribed
function are abstracted as identifiers. -/

inductive DGBC where
  | dirichlet (boundary : ℕ) (function : ℕ)
  | neumann (boundary : ℕ) (function : ℕ)
  | adiabaticWall (boundary : ℕ) (function : ℕ)
  | plain (boundary : ℕ) (function : ℕ)
  deriving DecidableEq

/-- Model of `DGBC.get_boundary` (operators.py line 17). -/
def DGBC.get_boundary : DGBC → ℕ
  | DGBC.dirichlet b _ => b
  | DGBC.neumann b _ => b
  | DGBC.adiabaticWall b _ => b
  | DGBC.plain b _ => b

/-- Model of `DGBC.get_function` (operators.py line 20). -/
def DGBC.get_function : DGBC → ℕ
  | DGBC.dirichlet _ f => f
  | DGBC.neumann _ f => f
  | DGBC.adiabaticWall _ f => f
  | DGBC.plain _ f => f

/-- Model of `isinstance(bc, DGDirichletBC)`. -/
def DGBC.isDirichlet : DGBC → Bool
  | DGBC.dirichlet _ _ => true
  | _ => false

/-- Model of `isinstance(bc, DGNeumannBC)`. -/
def DGBC.isNeumann : DGBC → Bool
  | DGBC.neumann _ _ => true
  | _ => false

/-- Model of `isinstance(bc, DGAdiabticWallBC)`. -/
def DGBC.isAdiabaticWall : DGBC → Bool
  | DGBC.adiabaticWall _ _ => true
  | _ => false

/-- Model of `self.dirichlet_bcs = [bc for bc in bcs if isinstance(bc, DGDirichletBC)]`
(operators.py line 54, `DGFemFormulation.__init__`). -/
def dirichlet_bcs (bcs : List DGBC) : List DGBC :=
  bcs.filter (fun bc => bc.isDirichlet)

/-- Model of `self.neumann_bcs = [bc for bc in bcs if isinstance(bc, DGNeumannBC)]`
(operators.py line 55). -/
def neumann_bcs (bcs : List DGBC) : List DGBC :=
  bcs.filter (fun bc => bc.isNeumann)

/-- Model of `self.adiabtic_wall_bcs = [bc for bc in bcs if isinstance(bc, DGAdiabticWallBC)]`
(operators.py line 240, `CompressibleNavierStokesOperator.__init__`). -/
def adiabatic_wall_bcs (bcs : List DGBC) : List DGBC :=
  bcs.filter (fun bc => bc.isAdiabaticWall)

/-- The three boundary-condition lists a `CompressibleNavierStokesOperator`
holds after construction: the parent `DGFemFormulation.__init__` partition
(lines 54-55) plus the adiabatic-wall list (line 240). -/
def CompressibleNavierStokesOperator_init_bcs (bcs : List DGBC) :
    List DGBC × List DGBC × List DGBC :=
  (dirichlet_bcs bcs, neumann_bcs bcs, adiabatic_wall_bcs bcs)

/-! ### Symbolic scalar expressions for the interior-penalty coefficient

`CellVolume(mesh)`, `FacetArea(mesh)` and `Constant(...)` are symbolic UFL
nodes; the penalty `sigma` is a symbolic expression evaluated later,
facet by facet, with the local cell volume and facet area of the cell
being integrated. -/

inductive SExpr where
  | const (q : ℚ)
  | cellVolume
  | facetArea
  | add (a b : SExpr)
  | mul (a b : SExpr)
  | div (a b : SExpr)
  deriving DecidableEq

/-- Evaluate a symbolic scalar at one cell/facet, with that cell's local
volume `cv` and that facet's local area `fa`. -/
def SExpr.eval (cv fa : ℚ) : SExpr → ℚ
  | SExpr.const q => q
  | SExpr.cellVolume => cv
  | SExpr.facetArea => fa
  | SExpr.add a b => a.eval cv fa + b.eval cv fa
  | SExpr.mul a b => a.eval cv fa * b.eval cv fa
  | SExpr.div a b => a.eval cv fa / b.eval cv fa

/-- Model of `h = CellVolume(self.mesh)/FacetArea(self.mesh)` (operators.py line 74,
identically line 311). -/
def h_expr : SExpr := SExpr.div SExpr.cellVolume SExpr.facetArea

/-- Model of `sigma = self.C_IP*Constant(max(self.fspace.ufl_element().degree()**2, 1))/h`
(operators.py line 76, identically line 320). -/
def sigma_expr (C_IP : ℚ) (degree : ℕ) : SExpr :=
  SExpr.div (SExpr.mul (SExpr.const C_IP) (SExpr.const (max (degree ^ 2) 1 : ℕ))) h_expr

/-! ### Symbolic residual forms

A residual is a sum of integral terms; we represent it as the list of its
terms, with `++` for symbolic `+`.  The SIPG term builder `DGFemSIPG`
(constructed in operators.py lines 80-83 and 320-322; its class lives in
dg_form.py, outside these sources) is represented by the data the
constructor receives: which viscous flux, the trial/test identifiers and
the symbolic penalty.  Measures are identifiers (`Measure('dx', ...)` and
`Measure('dS', ...)` defaults get fixed identifiers). -/

/-- Which viscous flux a SIPG term builder was given: the operator's bulk
`F_v`, or the specialised `F_v_adiabatic`. -/
inductive FluxKind where
  | viscous
  | adiabaticViscous
  deriving DecidableEq

/-- Data held by a `DGFemSIPG(F_v, u, v, sigma, G, n)` term builder; the
homogeneity tensor `G` is determined by `flux` and `u`, and `n` is the
facet normal of the mesh. -/
structure SIPGData where
  flux : FluxKind
  u : ℕ
  v : ℕ
  sigma : SExpr
  deriving DecidableEq

/-- One integral term of a residual. -/
inductive FormTerm where
  /-- `inner(self.F_v(u, grad(u)), grad(v))*dx` (operators.py line 87). -/
  | viscousVolume (flux : FluxKind) (u v dx : ℕ)
  /-- `vt.interior_residual(dS)` (operators.py line 88). -/
  | sipgInterior (vt : SIPGData) (dS : ℕ)
  /-- `vt.exterior_residual(g, region)` (operators.py lines 91, 324). -/
  | sipgExterior (vt : SIPGData) (g : ℕ) (region : ℕ)
  /-- `vt.neumann_residual(g, region)` (operators.py line 94). -/
  | sipgNeumann (vt : SIPGData) (g : ℕ) (region : ℕ)
  /-- `-inner(self.F_c(u), grad(v))*dx` (operators.py line 156). -/
  | convVolume (u v dx : ℕ)
  /-- `inner(self.H.interior(...), v(+) - v(-))*dS` (operators.py line 159). -/
  | convInterior (u v dS : ℕ)
  /-- `inner(self.H.exterior(self.F_c, u, g, n), v)*region` (operators.py
  lines 166 and 318). -/
  | convExterior (u g v region : ℕ)
  /-- `inner(dot(self.F_c(u), n), v)*region` (operators.py line 171). -/
  | convNeumann (u v region : ℕ)
  deriving DecidableEq

/-- Identifier of the default `Measure('dx', domain=self.mesh)`. -/
def dxDefault : ℕ := 0

/-- Identifier of the default `Measure('dS', domain=self.mesh)`. -/
def dSDefault : ℕ := 1

/-- The `DGFemSIPG` instance built by
`EllipticOperator.generate_fem_formulation` (operators.py lines 80-83). -/
def ellipticVt (C_IP : ℚ) (degree : ℕ) (flux : FluxKind) (u v : ℕ) : SIPGData :=
  { flux := flux, u := u, v := v, sigma := sigma_expr C_IP degree }

/-- The `DGFemSIPG` instance built per adiabatic-wall boundary condition in
`CompressibleNavierStokesOperator.generate_fem_formulation` (operators.py
lines 320-322), with `G_adiabitic = homogeneity_tensor(self.F_v_adiabatic, u)`. -/
def adiabaticVt (C_IP : ℚ) (degree : ℕ) (u v : ℕ) : SIPGData :=
  { flux := FluxKind.adiabaticViscous, u := u, v := v, sigma := sigma_expr C_IP degree }

/-- Model of `EllipticOperator.generate_fem_formulation` (operators.py lines 68-96):
volume term, SIPG interior term, then one exterior term per Dirichlet BC
and one natural term per Neumann BC, accumulated by `+=` in source order. -/
def EllipticOperator_generate_fem_formulation (C_IP : ℚ) (degree : ℕ) (flux : FluxKind)
    (bcs : List DGBC) (u v : ℕ) (dxO dSO : Option ℕ) : List FormTerm :=
  let dx := dxO.getD dxDefault
  let dS := dSO.getD dSDefault
  let vt := ellipticVt C_IP degree flux u v
  let residual := [FormTerm.viscousVolume flux u v dx, FormTerm.sipgInterior vt dS]
  let residual := (dirichlet_bcs bcs).foldl
    (fun r dbc => r ++ [FormTerm.sipgExterior vt dbc.get_function dbc.get_boundary]) residual
  (neumann_bcs bcs).foldl
    (fun r dbc => r ++ [FormTerm.sipgNeumann vt dbc.get_function dbc.get_boundary]) residual

/-- Model of `HyperbolicOperator.generate_fem_formulation` (operators.py lines
149-173), inherited unchanged by `CompressibleEulerOperator`: convective
volume term, interior numerical-flux term, one exterior numerical-flux
term per Dirichlet BC, one natural term per Neumann BC. -/
def HyperbolicOperator_generate_fem_formulation (bcs : List DGBC)
    (u v : ℕ) (dxO dSO : Option ℕ) : List FormTerm :=
  let dx := dxO.getD dxDefault
  let dS := dSO.getD dSDefault
  let residual := [FormTerm.convVolume u v dx, FormTerm.convInterior u v dS]
  let residual := (dirichlet_bcs bcs).foldl
    (fun r bc => r ++ [FormTerm.convExterior u bc.get_function v bc.get_boundary]) residual
  (neumann_bcs bcs).foldl
    (fun r bc => r ++ [FormTerm.convNeumann u v bc.get_boundary]) residual

/-- Model of `CompressibleNavierStokesOperator.generate_fem_formulation`
(operators.py lines 300-326): the elliptic residual plus the Euler
residual over the same resolved measures, then per adiabatic-wall BC a
convective exterior term (lines 317-318) and a specialised viscous SIPG
exterior term (lines 320-324). -/
def CompressibleNavierStokesOperator_generate_fem_formulation (C_IP : ℚ) (degree : ℕ)
    (bcs : List DGBC) (u v : ℕ) (dxO dSO : Option ℕ) : List FormTerm :=
  let dx := dxO.getD dxDefault
  let dS := dSO.getD dSDefault
  let residual :=
    EllipticOperator_generate_fem_formulation C_IP degree FluxKind.viscous bcs u v
      (some dx) (some dS)
    ++ HyperbolicOperator_generate_fem_formulation bcs u v (some dx) (some dS)
  (adiabatic_wall_bcs bcs).foldl
    (fun r bc => r ++ [FormTerm.convExterior u bc.get_function v bc.get_boundary,
        FormTerm.sipgExterior (adiabaticVt C_IP degree u v) bc.get_function bc.get_boundary])
    residual

/-! ### Compressible Euler and Navier-Stokes fluxes (operators.py lines 190-298)

The state vector has `dim + 2` components `(rho, rho*u_0..rho*u_{dim-1}, rho*E)`,
modelled as `U : ℕ → ℚ` (so `U[-1]` is `U (dim + 1)`), and `grad_U` as
`gU : ℕ → ℕ → ℚ` with `gU i k` the derivative of component `i` in
direction `k`.  Flux matrices are returned as row lists, mirroring the
`as_matrix([[...], ...])` literals.  A call that raises is `Except.error`;
a Python function that falls off its end returns `None`, i.e. `Except.ok none`. -/

/-- Model of `dot(a, b)` of two `d`-component vectors. -/
def dotv (d : ℕ) (a b : ℕ → ℚ) : ℚ := ∑ j in Finset.range d, a j * b j

/-- Model of `rho = U[0]`. -/
def ns_rho (U : ℕ → ℚ) : ℚ := U 0

/-- Model of `rhoE = U[-1]` (the state has `dim + 2` components). -/
def ns_rhoE (dim : ℕ) (U : ℕ → ℚ) : ℚ := U (dim + 1)

/-- Model of `rhou = as_vector([U[j] for j in range(1, dim+1)])`. -/
def ns_rhou (U : ℕ → ℚ) (j : ℕ) : ℚ := U (j + 1)

/-- Model of `u = rhou/rho`. -/
def ns_u (U : ℕ → ℚ) (j : ℕ) : ℚ := ns_rhou U j / ns_rho U

/-- Model of `grad_rho = grad_U[0, :]`. -/
def ns_grad_rho (gU : ℕ → ℕ → ℚ) (k : ℕ) : ℚ := gU 0 k

/-- Model of `grad_rhou = as_matrix([[grad_U[j,:] for j in range(1, dim+1)]])[0]`. -/
def ns_grad_rhou (gU : ℕ → ℕ → ℚ) (j k : ℕ) : ℚ := gU (j + 1) k

/-- Model of `grad_u = as_matrix([[(grad_rhou[j,:]*rho - rhou[j]*grad_rho)/rho**2 ...]])[0]`. -/
def ns_grad_u (U : ℕ → ℚ) (gU : ℕ → ℕ → ℚ) (j k : ℕ) : ℚ :=
  (ns_grad_rhou gU j k * ns_rho U - ns_rhou U j * ns_grad_rho gU k) / (ns_rho U) ^ 2

/-- Model of `grad_rhoE = grad_U[-1,:]`. -/
def ns_grad_rhoE (dim : ℕ) (gU : ℕ → ℕ → ℚ) (k : ℕ) : ℚ := gU (dim + 1) k

/-- Model of `grad_E = (grad_rhoE*rho - rhoE*grad_rho)/rho**2`. -/
def ns_grad_E (dim : ℕ) (U : ℕ → ℚ) (gU : ℕ → ℕ → ℚ) (k : ℕ) : ℚ :=
  (ns_grad_rhoE dim gU k * ns_rho U - ns_rhoE dim U * ns_grad_rho gU k) / (ns_rho U) ^ 2

/-- Model of `tr(grad_u)`. -/
def ns_tr_grad_u (dim : ℕ) (U : ℕ → ℚ) (gU : ℕ → ℕ → ℚ) : ℚ :=
  ∑ j in Finset.range dim, ns_grad_u U gU j j

/-- Model of `tau = mu*(grad_u + grad_u.T - 2.0/3.0*(tr(grad_u))*Identity(dim))`
(operators.py lines 254 and 281, identical in `F_v` and `F_v_adiabatic`). -/
def ns_tau (dim : ℕ) (μ : ℚ) (U : ℕ → ℚ) (gU : ℕ → ℕ → ℚ) (i j : ℕ) : ℚ :=
  μ * (ns_grad_u U gU i j + ns_grad_u U gU j i
    - 2 / 3 * ns_tr_grad_u dim U gU * (if i = j then 1 else 0))

/-- Model of `K_grad_T = mu*gamma/Pr*(grad_E - dot(u, grad_u))` (operators.py line 255). -/
def ns_K_grad_T (dim : ℕ) (μ γ Pr : ℚ) (U : ℕ → ℚ) (gU : ℕ → ℕ → ℚ) (k : ℕ) : ℚ :=
  μ * γ / Pr * (ns_grad_E dim U gU k - dotv dim (ns_u U) (fun j => ns_grad_u U gU j k))

/-- Model of `E = U[-1]/U[0]` in `F_c`. -/
def euler_E (dim : ℕ) (U : ℕ → ℚ) : ℚ := U (dim + 1) / U 0

/-- Model of `p = (gamma - 1.0)*rho*(E - 0.5*dot(u, u))` in `F_c`. -/
def euler_p (dim : ℕ) (γ : ℚ) (U : ℕ → ℚ) : ℚ :=
  (γ - 1) * ns_rho U * (euler_E dim U - 1 / 2 * dotv dim (ns_u U) (ns_u U))

/-- Model of `H = E + p/rho` in `F_c`. -/
def euler_H (dim : ℕ) (γ : ℚ) (U : ℕ → ℚ) : ℚ :=
  euler_E dim U + euler_p dim γ U / ns_rho U

/-- The `dim == 2` matrix literal of `F_c` (operators.py lines 205-208). -/
def F_c_mat2 (γ : ℚ) (U : ℕ → ℚ) : List (List ℚ) :=
  let rho := ns_rho U
  let u := ns_u U
  let p := euler_p 2 γ U
  let H := euler_H 2 γ U
  [[rho * u 0, rho * u 1],
   [rho * u 0 ^ 2 + p, rho * u 0 * u 1],
   [rho * u 0 * u 1, rho * u 1 ^ 2 + p],
   [rho * H * u 0, rho * H * u 1]]

/-- The `dim == 3` matrix literal of `F_c` (operators.py lines 210-214). -/
def F_c_mat3 (γ : ℚ) (U : ℕ → ℚ) : List (List ℚ) :=
  let rho := ns_rho U
  let u := ns_u U
  let p := euler_p 3 γ U
  let H := euler_H 3 γ U
  [[rho * u 0, rho * u 1, rho * u 2],
   [rho * u 0 ^ 2 + p, rho * u 0 * u 1, rho * u 0 * u 2],
   [rho * u 0 * u 1, rho * u 1 ^ 2 + p, rho * u 1 * u 2],
   [rho * u 0 * u 2, rho * u 1 * u 2, rho * u 2 ^ 2 + p],
   [rho * H * u 0, rho * H * u 1, rho * H * u 2]]

/-- Model of `F_c(U)` of `CompressibleEulerOperator.__init__` (operators.py lines
197-215).  For `dim` other than 2 and 3 neither branch assigns `res`, so
`return res` raises `UnboundLocalError` for the local name `res`. -/
def F_c (dim : ℕ) (γ : ℚ) (U : ℕ → ℚ) : Except PyErr (Option (List (List ℚ))) :=
  if dim = 2 then Except.ok (some (F_c_mat2 γ U))
  else if dim = 3 then Except.ok (some (F_c_mat3 γ U))
  else Except.error (PyErr.unboundLocalError ("res"))

/-- The `dim == 2` matrix literal of `F_v` (operators.py lines 259-262). -/
def F_v_mat2 (γ μ Pr : ℚ) (U : ℕ → ℚ) (gU : ℕ → ℕ → ℚ) : List (List ℚ) :=
  let u := ns_u U
  let tau := ns_tau 2 μ U gU
  let K_grad_T := ns_K_grad_T 2 μ γ Pr U gU
  [[0, 0],
   [tau 0 0, tau 0 1],
   [tau 1 0, tau 1 1],
   [dotv 2 (tau 0) u + K_grad_T 0, dotv 2 (tau 1) u + K_grad_T 1]]

/-- The `dim == 3` matrix literal of `F_v` (operators.py lines 264-268). -/
def F_v_mat3 (γ μ Pr : ℚ) (U : ℕ → ℚ) (gU : ℕ → ℕ → ℚ) : List (List ℚ) :=
  let u := ns_u U
  let tau := ns_tau 3 μ U gU
  let K_grad_T := ns_K_grad_T 3 μ γ Pr U gU
  [[0, 0, 0],
   [tau 0 0, tau 0 1, tau 0 2],
   [tau 1 0, tau 1 1, tau 1 2],
   [tau 2 0, tau 2 1, tau 2 2],
   [dotv 3 (tau 0) u + K_grad_T 0, dotv 3 (tau 1) u + K_grad_T 1,
    dotv 3 (tau 2) u + K_grad_T 2]]

/-- Model of `F_v(U, grad_U)` of `CompressibleNavierStokesOperator.__init__`
(operators.py lines 242-268).  For `dim` other than 2 and 3 the `if`/`elif`
chain falls through and the function returns `None` without raising. -/
def F_v (dim : ℕ) (γ μ Pr : ℚ) (U : ℕ → ℚ) (gU : ℕ → ℕ → ℚ) :
    Except PyErr (Option (List (List ℚ))) :=
  if dim = 2 then Except.ok (some (F_v_mat2 γ μ Pr U gU))
  else if dim = 3 then Except.ok (some (F_v_mat3 γ μ Pr U gU))
  else Except.ok none

/-- The `dim == 2` matrix literal of `F_v_adiabatic` (operators.py lines
284-287): the last row is `dot(tau[i,:], u)` with no `K_grad_T`. -/
def F_v_adiabatic_mat2 (μ : ℚ) (U : ℕ → ℚ) (gU : ℕ → ℕ → ℚ) : List (List ℚ) :=
  let u := ns_u U
  let tau := ns_tau 2 μ U gU
  [[0, 0],
   [tau 0 0, tau 0 1],
   [tau 1 0, tau 1 1],
   [dotv 2 (tau 0) u, dotv 2 (tau 1) u]]

/-- The `dim == 3` matrix literal of `F_v_adiabatic` (operators.py lines
289-293). -/
def F_v_adiabatic_mat3 (μ : ℚ) (U : ℕ → ℚ) (gU : ℕ → ℕ → ℚ) : List (List ℚ) :=
  let u := ns_u U
  let tau := ns_tau 3 μ U gU
  [[0, 0, 0],
   [tau 0 0, tau 0 1, tau 0 2],
   [tau 1 0, tau 1 1, tau 1 2],
   [tau 2 0, tau 2 1, tau 2 2],
   [dotv 3 (tau 0) u, dotv 3 (tau 1) u, dotv 3 (tau 2) u]]

/-- Model of `F_v_adiabatic(U, grad_U)` of `CompressibleNavierStokesOperator.__init__`
(operators.py lines 271-293); like `F_v` it returns `None` for `dim`
other than 2 and 3. -/
def F_v_adiabatic (dim : ℕ) (μ : ℚ) (U : ℕ → ℚ) (gU : ℕ → ℕ → ℚ) :
    Except PyErr (Option (List (List ℚ))) :=
  if dim = 2 then Except.ok (some (F_v_adiabatic_mat2 μ U gU))
  else if dim = 3 then Except.ok (some (F_v_adiabatic_mat3 μ U gU))
  else Except.ok none

/-! ### The nonlinear dispatcher (dolfinx/nls.py)

Python objects passed as the `a` (Jacobian) and `L` (residual)
specifications are dynamically typed: a single form, a list of forms, or
anything else. -/

/-- A dynamically typed residual/Jacobian specification argument. -/
inductive PyObj where
  | formV (id : ℕ)
  | listV (ids : List ℕ)
  | otherV (s : String)
  deriving DecidableEq

/-- Model of `isinstance(x, list)`. -/
def PyObj.isList : PyObj → Bool
  | PyObj.listV _ => true
  | _ => false

/-- Model of `MatrixType` (nls.py lines 6-9). -/
inductive MatrixType where
  | monolithic
  | block
  | nest
  deriving DecidableEq

/-- The state a successfully constructed `GenericSNESProblem` holds;
`Fcallback`/`Jcallback` record which of `F_mono`/`F_block`/`F_nest`
(resp. `J_*`) the `if`/`elif` chain of lines 65-73 selected. -/
structure SNESProblem where
  a : PyObj
  L : PyObj
  P : PyObj
  bcs : List ℕ
  soln_vars : List ℕ
  assemble_type : MatrixType
  use_preconditioner : Bool
  Fcallback : MatrixType
  Jcallback : MatrixType
  deriving DecidableEq

/-- Model of `GenericSNESProblem.__init__` (nls.py lines 49-73).  For a layout
other than monolithic the two bare `assert isinstance(..., list)`
statements run first, `a` then `L`; a failing `assert` raises
`AssertionError` carrying no message.  The `bcs` argument is taken after
the `hasattr(bcs, "__len__")` wrapping. -/
def GenericSNESProblem_init (a L P : PyObj) (bcs : List ℕ) (soln_vars : List ℕ)
    (assemble_type : MatrixType) (use_preconditioner : Bool) :
    Except PyErr SNESProblem :=
  if assemble_type = MatrixType.monolithic then
    Except.ok { a := a, L := L, P := P, bcs := bcs, soln_vars := soln_vars,
                assemble_type := assemble_type,
                use_preconditioner := use_preconditioner,
                Fcallback := assemble_type, Jcallback := assemble_type }
  else if a.isList = false then
    Except.error PyErr.assertionError
  else if L.isList = false then
    Except.error PyErr.assertionError
  else
    Except.ok { a := a, L := L, P := P, bcs := bcs, soln_vars := soln_vars,
                assemble_type := assemble_type,
                use_preconditioner := use_preconditioner,
                Fcallback := assemble_type, Jcallback := assemble_type }

/-! ### `derivative_block` (nls.py lines 12-45)

The symbolic engine `ufl` is an external collaborator; its operations are
parameters.  `ufl.derivative` is called both with the raw dynamically
typed `u`/`du` arguments (single-form branch) and with list elements
(matrix branch), so it takes dynamic wrappers. -/

/-- Dynamic `F` argument: a `ufl.Form`, a list of forms, or anything else. -/
inductive FDyn (Form : Type) where
  | formD (f : Form)
  | listD (fs : List Form)
  | otherD (s : String)

/-- Dynamic `u` argument: a coefficient, a list of coefficients, or
anything else. -/
inductive UDyn (Coeff : Type) where
  | coeffD (c : Coeff)
  | listD (cs : List Coeff)
  | otherD (s : String)

/-- Dynamic `du` argument: `None`, a single argument, a list of
arguments, or anything else. -/
inductive DuDyn (Arg : Type) where
  | noneD
  | argD (a : Arg)
  | listD (ds : List Arg)
  | otherD (s : String)

/-- The operations of the external `ufl` collaborator used by
`derivative_block`:  `ufl.derivative(F, u, du, coefficient_derivatives)`,
`apply_algebra_lowering`, `apply_derivatives`, and `Form.empty()`. -/
structure UflOps (Form Coeff Arg CD : Type) where
  derivative : Form → UDyn Coeff → DuDyn Arg → Option CD → Form
  apply_algebra_lowering : Form → Form
  apply_derivatives : Form → Form
  isEmpty : Form → Bool

/-- Result of `derivative_block`: either the plain `ufl.derivative` of a
single form, or the `n`-by-`m` block matrix with `None` structural zeros. -/
inductive DerivBlockResult (Form : Type) where
  | single (f : Form)
  | matrix (J : List (List (Option Form)))

/-- Python's `du[j]` value (either `None` or an argument) re-wrapped for
passing to `ufl.derivative`. -/
def duDynOfOpt {Arg : Type} : Option Arg → DuDyn Arg
  | none => DuDyn.noneD
  | some a => DuDyn.argD a

/-- Loop body of nls.py lines 39-43:
`gateaux_derivative = ufl.derivative(F[i], u[j], du[j], cd)`, then
`apply_derivatives(apply_algebra_lowering(...))`, then the
`empty()`-to-`None` replacement. -/
def derivEntry {Form Coeff Arg CD : Type} (ops : UflOps Form Coeff Arg CD)
    (cd : Option CD) (Fi : Form) (uj : Coeff) (dj : Option Arg) : Option Form :=
  let gateaux_derivative := ops.derivative Fi (UDyn.coeffD uj) (duDynOfOpt dj) cd
  let gateaux_derivative := ops.apply_derivatives (ops.apply_algebra_lowering gateaux_derivative)
  if ops.isEmpty gateaux_derivative then none else some gateaux_derivative

/-- Model of `derivative_block(F, u, du, coefficient_derivatives)` (nls.py lines
12-45).  A single `ufl.Form` short-circuits to plain `ufl.derivative`;
otherwise `F`, `u` and (when not `None`) `du` must be lists, each failure
raising a `TypeError`; then `J[i][j]` is filled for `(i, j)` in
`itertools.product(range(n), range(m))` (row-major).  When `du` is a
list, `du[j]` can raise `IndexError` if it is shorter than `u`. -/
def derivative_block {Form Coeff Arg CD : Type} (ops : UflOps Form Coeff Arg CD)
    (F : FDyn Form) (u : UDyn Coeff) (du : DuDyn Arg) (cd : Option CD) :
    Except PyErr (DerivBlockResult Form) :=
  match F with
  | FDyn.formD f => Except.ok (DerivBlockResult.single (ops.derivative f u du cd))
  | FDyn.otherD _ => Except.error (PyErr.typeError ("Expecting F to be a list of Forms."))
  | FDyn.listD Fs =>
    match u with
    | UDyn.coeffD _ => Except.error (PyErr.typeError ("Expecting u to be a list of Coefficients."))
    | UDyn.otherD _ => Except.error (PyErr.typeError ("Expecting u to be a list of Coefficients."))
    | UDyn.listD us =>
      match du with
      | DuDyn.argD _ => Except.error (PyErr.typeError ("Expecting du to be a list of Arguments."))
      | DuDyn.otherD _ => Except.error (PyErr.typeError ("Expecting du to be a list of Arguments."))
      | DuDyn.noneD =>
        -- du = [None] * m, so du[j] is None at every j.
        Except.map DerivBlockResult.matrix
          (Fs.mapM (fun Fi => us.mapM (fun uj => Except.ok (derivEntry ops cd Fi uj none))))
      | DuDyn.listD ds =>
        Except.map DerivBlockResult.matrix
          (Fs.mapM (fun Fi => us.enum.mapM (fun ju =>
            match ds.get? ju.1 with
            | some a => Except.ok (derivEntry ops cd Fi ju.2 (some a))
            | none => Except.error PyErr.indexError)))

/-! ### Residual evaluation callbacks (nls.py lines 75-136)

Distributed vectors are modelled as `ℕ → ℚ`; the external PETSc/dolfinx
primitives (ghost updates, assembly kernels, lifting, `set_bc`) are
parameter functions of exactly the data the source passes them.  The one
committed semantic fact about the collaborator, documented by the spec
(the residual must be zeroed before assembly, ghost accumulation is
"reduction by addition", the result must be "fully assembled, not just
locally accumulated"), is that assembly kernels ADD their contributions
into the existing output container; the explicit
`f_local.set(0.0)` lines of `F_mono`/`F_block` are what makes the result
independent of the container's prior content. -/

/-- State touched by `F_mono`: the monolithic solution-variable vector and
the output residual vector. -/
structure MonoState where
  soln : ℕ → ℚ
  F : ℕ → ℚ

/-- Model of `GenericSNESProblem.F_mono` (nls.py lines 75-85). -/
def F_mono (gsync gaccum : (ℕ → ℚ) → (ℕ → ℚ))
    (asmV : (ℕ → ℚ) → (ℕ → ℚ))
    (liftV : (ℕ → ℚ) → (ℕ → ℚ) → (ℕ → ℚ))
    (setbc : (ℕ → ℚ) → (ℕ → ℚ) → (ℕ → ℚ))
    (x : ℕ → ℚ) (s : MonoState) : MonoState :=
  -- x.ghostUpdate(addv=INSERT, mode=FORWARD)
  let x1 := gsync x
  -- x.copy(self.soln_vars.vector)
  let soln1 := x1
  -- self.soln_vars.vector.ghostUpdate(addv=INSERT, mode=FORWARD)
  let soln2 := gsync soln1
  -- with F.localForm() as f_local: f_local.set(0.0)
  let F0 : ℕ → ℚ := fun _ => 0
  -- dolfinx.fem.assemble_vector(F, self.L): accumulates into F
  let F1 := fun i => F0 i + asmV soln2 i
  -- dolfinx.fem.apply_lifting(F, a=[self.a], bcs=[self.bcs], x0=[x], scale=-1.0)
  let F2 := fun i => F1 i + liftV soln2 x1 i
  -- F.ghostUpdate(addv=ADD, mode=REVERSE)
  let F3 := gaccum F2
  -- dolfinx.fem.set_bc(F, self.bcs, x, -1.0)
  let F4 := setbc F3 x1
  { soln := soln2, F := F4 }

/-- One entry of `self.soln_vars` in the block layout: its local size and
its values. -/
structure BlockVar where
  size : ℕ
  vec : ℕ → ℚ

/-- The partition loop of `F_block` (nls.py lines 100-105):
`var.vector.array[:] = x.array_r[offset:offset + size_local]`, each new
sub-vector ghost-updated, `offset += size_local`. -/
def blockCopy (gsync : (ℕ → ℚ) → (ℕ → ℚ)) (x : ℕ → ℚ) :
    List BlockVar → ℕ → List BlockVar
  | [], _ => []
  | var :: vs, offset =>
    { size := var.size, vec := gsync (fun i => x (offset + i)) }
      :: blockCopy gsync x vs (offset + var.size)

/-- State touched by `F_block`. -/
structure BlockState where
  soln : List BlockVar
  F : ℕ → ℚ

/-- Model of `GenericSNESProblem.F_block` (nls.py lines 97-110);
`assemble_vector_block(F, L, a, bcs, x0=x, scale=-1.0)` performs the
assembly and the lifting together, accumulating into `F`. -/
def F_block (gsync : (ℕ → ℚ) → (ℕ → ℚ))
    (asmB : List BlockVar → (ℕ → ℚ) → (ℕ → ℚ))
    (x : ℕ → ℚ) (s : BlockState) : BlockState :=
  -- x.ghostUpdate(addv=INSERT, mode=FORWARD)
  let x1 := gsync x
  -- the partition loop over self.soln_vars
  let vars := blockCopy gsync x1 s.soln 0
  -- with F.localForm() as f_local: f_local.set(0.0)
  let F0 : ℕ → ℚ := fun _ => 0
  -- dolfinx.fem.assemble_vector_block(F, self.L, self.a, self.bcs, x0=x, scale=-1.0)
  let F1 := fun i => F0 i + asmB vars x1 i
  { soln := vars, F := F1 }

/-- State touched by `F_nest`: per-block solution vectors and per-block
output residual sub-vectors. -/
structure NestState where
  soln : List (ℕ → ℚ)
  F : List (ℕ → ℚ)

/-- Model of `GenericSNESProblem.F_nest` (nls.py lines 122-136).  Unlike `F_mono`
and `F_block` the output sub-vectors are NOT zeroed before
`assemble_vector_nest`, so the assembly accumulates on top of whatever
`F` already holds. -/
def F_nest (gsync gaccum : (ℕ → ℚ) → (ℕ → ℚ))
    (asmN : List (ℕ → ℚ) → List (ℕ → ℚ))
    (liftN : List (ℕ → ℚ) → List (ℕ → ℚ) → List (ℕ → ℚ))
    (setbcN : List (ℕ → ℚ) → List (ℕ → ℚ) → List (ℕ → ℚ))
    (finalN : List (ℕ → ℚ) → List (ℕ → ℚ))
    (x : List (ℕ → ℚ)) (s : NestState) : NestState :=
  -- for x_sub, var_sub in zip(...): x_sub.ghostUpdate(INSERT, FORWARD); _u[:] = _x
  let x1 := x.map gsync
  let vars := x1
  -- dolfinx.fem.assemble_vector_nest(F, self.L): accumulates into F (no zeroing above!)
  let F1 := List.zipWith (fun Fi c => fun i => Fi i + c i) s.F (asmN vars)
  -- apply_lifting_nest(F, self.a, self.bcs, x0=x, scale=-1.0): accumulates
  let F2 := List.zipWith (fun Fi c => fun i => Fi i + c i) F1 (liftN vars x1)
  -- for F_sub in F.getNestSubVecs(): F_sub.ghostUpdate(ADD, REVERSE)
  let F3 := F2.map gaccum
  -- set_bc_nest(F, bcs0, x0=x, scale=-1.0)
  let F4 := setbcN F3 x1
  -- F.assemble()
  { soln := vars, F := finalN F4 }

/-! ### Jacobian evaluation callbacks (nls.py lines 87-95, 112-120, 138-147) -/

/-- The state visible to a Jacobian callback: the solution variables, the
residual vector, the Jacobian matrix and the preconditioner matrix (types
kept abstract). -/
structure JacState (σ φ μ : Type) where
  soln : σ
  F : φ
  J : μ
  P : μ

/-- Model of `GenericSNESProblem.J_mono` (nls.py lines 87-95): `J.zeroEntries()`,
`assemble_matrix(J, self.a, bcs=self.bcs)` (accumulating into the zeroed
matrix, reading the coefficients i.e. the solution variables),
`J.assemble()`; the same for `P` when `use_preconditioner`.  The iterate
`x` is never read. -/
def J_mono {σ φ μ ξ : Type} (zeroE : μ → μ) (asmA : μ → σ → μ) (finalM : μ → μ)
    (asmP : μ → σ → μ) (use_preconditioner : Bool) (x : ξ)
    (s : JacState σ φ μ) : JacState σ φ μ :=
  let J1 := finalM (asmA (zeroE s.J) s.soln)
  let P1 := if use_preconditioner then finalM (asmP (zeroE s.P) s.soln) else s.P
  { s with J := J1, P := P1 }

/-- Model of `GenericSNESProblem.J_block` (nls.py lines 112-120):
`assemble_matrix_block(J, self.a, self.bcs, 1.0)` takes the boundary
diagonal value `1.0` positionally. -/
def J_block {σ φ μ ξ : Type} (zeroE : μ → μ) (asmA : μ → σ → ℚ → μ) (finalM : μ → μ)
    (asmP : μ → σ → ℚ → μ) (use_preconditioner : Bool) (x : ξ)
    (s : JacState σ φ μ) : JacState σ φ μ :=
  let J1 := finalM (asmA (zeroE s.J) s.soln 1)
  let P1 := if use_preconditioner then finalM (asmP (zeroE s.P) s.soln 1) else s.P
  { s with J := J1, P := P1 }

/-- Model of `GenericSNESProblem.J_nest` (nls.py lines 138-147): `diagonal = 1.0`,
`assemble_matrix_nest(J, self.a, self.bcs, diagonal)`. -/
def J_nest {σ φ μ ξ : Type} (zeroE : μ → μ) (asmA : μ → σ → ℚ → μ) (finalM : μ → μ)
    (asmP : μ → σ → ℚ → μ) (use_preconditioner : Bool) (x : ξ)
    (s : JacState σ φ μ) : JacState σ φ μ :=
  let diagonal : ℚ := 1
  let J1 := finalM (asmA (zeroE s.J) s.soln diagonal)
  let P1 := if use_preconditioner then finalM (asmP (zeroE s.P) s.soln diagonal) else s.P
  { s with J := J1, P := P1 }

/-! ### Homogeneity tensor and hyper tensor product

Modelled from the spec: `homogeneity_tensor` and `hyper_tensor_product`
are defined in `dolfin_dg/dg_form.py`, which is not among these sources
(only their unit tests in `test/unit/test_dg_form.py` and their callers
in operators.py are).  Spec 4.1: introduce an auxiliary differentiation
variable for `grad_u`, differentiate `F(u, grad_u)` with respect to it
symbolically, and substitute back; `G` is a 4-index tensor relating flux
components to gradient components, and `hyper_tensor_product(G, grad_u)`
contracts those gradient indices.  We model matrix-valued symbolic
expressions over the entries of the auxiliary gradient variable. -/

/-- A symbolic scalar expression in the entries of the auxiliary gradient
variable: `gvar i k` is entry `(i, k)` of the differentiation variable
standing for `grad_u`. -/
inductive GExpr where
  | const (q : ℚ)
  | gvar (i k : ℕ)
  | add (a b : GExpr)
  | mul (a b : GExpr)
  deriving DecidableEq

/-- Symbolic partial derivative with respect to entry `(j, l)` of the
auxiliary gradient variable (the `diff` of the symbolic engine, after
`apply_derivatives` simplification). -/
def GExpr.diffG : GExpr → ℕ → ℕ → GExpr
  | GExpr.const _, _, _ => GExpr.const 0
  | GExpr.gvar i k, j, l => if i = j ∧ k = l then GExpr.const 1 else GExpr.const 0
  | GExpr.add a b, j, l => GExpr.add (a.diffG j l) (b.diffG j l)
  | GExpr.mul a b, j, l =>
    GExpr.add (GExpr.mul (a.diffG j l) b) (GExpr.mul a (b.diffG j l))

/-- Substitute the actual gradient `g` back for the auxiliary variable and
evaluate. -/
def GExpr.evalG (g : ℕ → ℕ → ℚ) : GExpr → ℚ
  | GExpr.const q => q
  | GExpr.gvar i k => g i k
  | GExpr.add a b => a.evalG g + b.evalG g
  | GExpr.mul a b => a.evalG g * b.evalG g

/-- Modelled from the spec: `homogeneity_tensor(F_v, u)` of
dg_form.py — the 4-index tensor `G[i, k, j, l] = diff(F_v(u, gvar)[i, k], gvar[j, l])`. -/
def homogeneity_tensor (F_v : ℕ → ℕ → GExpr) (i k j l : ℕ) : GExpr :=
  (F_v i k).diffG j l

/-- Modelled from the spec: `hyper_tensor_product(G, grad_u)` of
dg_form.py — contraction of the two gradient indices of `G` (ranging over
`m` flux rows and `d` spatial directions) against `grad_u`. -/
def hyper_tensor_product (m d : ℕ) (G : ℕ → ℕ → ℕ → ℕ → ℚ) (g : ℕ → ℕ → ℚ)
    (i k : ℕ) : ℚ :=
  ∑ j in Finset.range m, ∑ l in Finset.range d, G i k j l * g j l

/-- The test fixture `F1` of test_dg_form.py lines 22-26:
`F_v(u, grad_u) = grad_u` exactly. -/
def F1_flux : ℕ → ℕ → GExpr := fun i k => GExpr.gvar i k

/-! ### Helper lemmas -/

/-- A Python `for` loop that appends terms to a residual is a `foldl`;
it equals the initial residual followed by the per-item terms. -/
theorem foldl_append_eq {α β : Type} (f : α → List β) :
    ∀ (xs : List α) (init : List β),
      xs.foldl (fun r x => r ++ f x) init = init ++ xs.flatMap f := by
  intro xs
  induction xs with
  | nil => intro init; simp
  | cons x tl ih =>
    intro init
    simp only [List.foldl_cons, List.flatMap_cons, ih, List.append_assoc]

/-- The three-way `isinstance` partition of a boundary-condition list is a
permutation of the list when every entry is one of the three kinds. -/
theorem bc_filter_perm :
    ∀ (bcs : List DGBC),
      (∀ bc ∈ bcs, bc.isDirichlet = true ∨ bc.isNeumann = true ∨ bc.isAdiabaticWall = true) →
      (dirichlet_bcs bcs ++ neumann_bcs bcs ++ adiabatic_wall_bcs bcs).Perm bcs := by
  intro bcs
  induction bcs with
  | nil => intro _; simp [dirichlet_bcs, neumann_bcs, adiabatic_wall_bcs]
  | cons bc tl ih =>
    intro h
    have htl := ih (fun b hb => h b (List.mem_cons_of_mem bc hb))
    have hbc := h bc (List.mem_cons_self bc tl)
    match bc with
    | DGBC.dirichlet b f =>
      have hfilter :
          dirichlet_bcs (DGBC.dirichlet b f :: tl) ++ neumann_bcs (DGBC.dirichlet b f :: tl)
            ++ adiabatic_wall_bcs (DGBC.dirichlet b f :: tl)
          = DGBC.dirichlet b f
            :: (dirichlet_bcs tl ++ neumann_bcs tl ++ adiabatic_wall_bcs tl) := by
        simp [dirichlet_bcs, neumann_bcs, adiabatic_wall_bcs, List.filter_cons,
          DGBC.isDirichlet, DGBC.isNeumann, DGBC.isAdiabaticWall]
      rw [hfilter]
      exact htl.cons _
    | DGBC.neumann b f =>
      have hfilter :
          dirichlet_bcs (DGBC.neumann b f :: tl) ++ neumann_bcs (DGBC.neumann b f :: tl)
            ++ adiabatic_wall_bcs (DGBC.neumann b f :: tl)
          = dirichlet_bcs tl
            ++ (DGBC.neumann b f :: (neumann_bcs tl ++ adiabatic_wall_bcs tl)) := by
        simp [dirichlet_bcs, neumann_bcs, adiabatic_wall_bcs, List.filter_cons,
          DGBC.isDirichlet, DGBC.isNeumann, DGBC.isAdiabaticWall, List.append_assoc]
      have htl2 : (dirichlet_bcs tl ++ (neumann_bcs tl ++ adiabatic_wall_bcs tl)).Perm tl := by
        simpa [List.append_assoc] using htl
      rw [hfilter]
      exact List.perm_middle.trans (htl2.cons _)
    | DGBC.adiabaticWall b f =>
      have hfilter :
          dirichlet_bcs (DGBC.adiabaticWall b f :: tl)
            ++ neumann_bcs (DGBC.adiabaticWall b f :: tl)
            ++ adiabatic_wall_bcs (DGBC.adiabaticWall b f :: tl)
          = (dirichlet_bcs tl ++ neumann_bcs tl)
            ++ (DGBC.adiabaticWall b f :: adiabatic_wall_bcs tl) := by
        simp [dirichlet_bcs, neumann_bcs, adiabatic_wall_bcs, List.filter_cons,
          DGBC.isDirichlet, DGBC.isNeumann, DGBC.isAdiabaticWall, List.append_assoc]
      rw [hfilter]
      exact List.perm_middle.trans (htl.cons _)
    | DGBC.plain b f =>
      simp [DGBC.isDirichlet, DGBC.isNeumann, DGBC.isAdiabaticWall] at hbc

/-- Re-partitioning an already-partitioned block solution list from the
same synced iterate reproduces it: `blockCopy` reads only the sub-vector
sizes from its input, and preserves them. -/
theorem blockCopy_idem (gsync : (ℕ → ℚ) → (ℕ → ℚ)) (x : ℕ → ℚ) :
    ∀ (vs : List BlockVar) (offset : ℕ),
      blockCopy gsync x (blockCopy gsync x vs offset) offset
        = blockCopy gsync x vs offset := by
  intro vs
  induction vs with
  | nil => intro offset; rfl
  | cons var tl ih => intro offset; simp [blockCopy, ih]

/-! ### Claims -/

/-- Claim C1: constructing a formulation with a mixed list of
Dirichlet/Neumann/AdiabaticWall boundary conditions partitions the list
into the three lists consumed by the three boundary-term paths of
`generate_fem_formulation` (SIPG/convective Dirichlet exterior terms from
`dirichlet_bcs`, Neumann natural terms from `neumann_bcs`, the
specialised adiabatic-wall terms from `adiabatic_wall_bcs`): their
concatenation is a permutation of the input list (none omitted, none
double-counted), each list is pure in its kind, and the kinds are
mutually exclusive, so each condition is routed into exactly one path. -/
theorem claim_C1_bc_partitioning (bcs : List DGBC)
    (h : ∀ bc ∈ bcs, bc.isDirichlet = true ∨ bc.isNeumann = true ∨ bc.isAdiabaticWall = true) :
    (dirichlet_bcs bcs ++ neumann_bcs bcs ++ adiabatic_wall_bcs bcs).Perm bcs
    ∧ (∀ bc ∈ dirichlet_bcs bcs, bc.isDirichlet = true)
    ∧ (∀ bc ∈ neumann_bcs bcs, bc.isNeumann = true)
    ∧ (∀ bc ∈ adiabatic_wall_bcs bcs, bc.isAdiabaticWall = true)
    ∧ (∀ bc ∈ bcs, (bc.isDirichlet && bc.isNeumann) = false
        ∧ (bc.isDirichlet && bc.isAdiabaticWall) = false
        ∧ (bc.isNeumann && bc.isAdiabaticWall) = false) := by
  refine ⟨bc_filter_perm bcs h, ?_, ?_, ?_, ?_⟩
  · intro bc hbc
    exact List.of_mem_filter hbc
  · intro bc hbc
    exact List.of_mem_filter hbc
  · intro bc hbc
    exact List.of_mem_filter hbc
  · intro bc _
    cases bc <;> simp [DGBC.isDirichlet, DGBC.isNeumann, DGBC.isAdiabaticWall]

/-- Concrete witness for claim C1 on a mixed four-condition list. -/
theorem claim_C1_bc_partitioning_witness :
    (∀ bc ∈ [DGBC.dirichlet 1 10, DGBC.neumann 2 20, DGBC.adiabaticWall 3 30,
        DGBC.dirichlet 4 40],
      bc.isDirichlet = true ∨ bc.isNeumann = true ∨ bc.isAdiabaticWall = true)
    ∧ ((dirichlet_bcs [DGBC.dirichlet 1 10, DGBC.neumann 2 20, DGBC.adiabaticWall 3 30,
          DGBC.dirichlet 4 40]
        ++ neumann_bcs [DGBC.dirichlet 1 10, DGBC.neumann 2 20, DGBC.adiabaticWall 3 30,
          DGBC.dirichlet 4 40]
        ++ adiabatic_wall_bcs [DGBC.dirichlet 1 10, DGBC.neumann 2 20,
          DGBC.adiabaticWall 3 30, DGBC.dirichlet 4 40]).Perm
        [DGBC.dirichlet 1 10, DGBC.neumann 2 20, DGBC.adiabaticWall 3 30,
          DGBC.dirichlet 4 40]
      ∧ (∀ bc ∈ dirichlet_bcs [DGBC.dirichlet 1 10, DGBC.neumann 2 20,
            DGBC.adiabaticWall 3 30, DGBC.dirichlet 4 40], bc.isDirichlet = true)
      ∧ (∀ bc ∈ neumann_bcs [DGBC.dirichlet 1 10, DGBC.neumann 2 20,
            DGBC.adiabaticWall 3 30, DGBC.dirichlet 4 40], bc.isNeumann = true)
      ∧ (∀ bc ∈ adiabatic_wall_bcs [DGBC.dirichlet 1 10, DGBC.neumann 2 20,
            DGBC.adiabaticWall 3 30, DGBC.dirichlet 4 40], bc.isAdiabaticWall = true)
      ∧ (∀ bc ∈ [DGBC.dirichlet 1 10, DGBC.neumann 2 20, DGBC.adiabaticWall 3 30,
            DGBC.dirichlet 4 40],
          (bc.isDirichlet && bc.isNeumann) = false
          ∧ (bc.isDirichlet && bc.isAdiabaticWall) = false
          ∧ (bc.isNeumann && bc.isAdiabaticWall) = false)) :=
  ⟨by decide, claim_C1_bc_partitioning _ (by decide)⟩

/-- Claim C2 counterexample: at geometric dimension 1 the Navier-Stokes
viscous flux `F_v` does NOT raise any error — its `if dim == 2 / elif
dim == 3` chain falls through and the closure silently returns Python
`None`, refuting the claim that every unhandled dimension raises a
reported configuration error at flux evaluation. -/
theorem claim_C2_counterexample :
    F_v 1 (7 / 5) 1 (18 / 25) (fun _ => 1) (fun _ _ => 0) = Except.ok none := rfl

/-- Claim C2 as amended: for every geometric dimension other than 2 and 3,
evaluating the convective flux `F_c` raises an `UnboundLocalError` for
the never-assigned local `res` (an error, though not a deliberate
configuration check), while the viscous fluxes `F_v` and `F_v_adiabatic`
silently return `None` — a silent no-op at flux level, failing only
later downstream. -/
theorem claim_C2_dimension_branches (dim : ℕ) (h2 : dim ≠ 2) (h3 : dim ≠ 3)
    (γ μ Pr : ℚ) (U : ℕ → ℚ) (gU : ℕ → ℕ → ℚ) :
    F_c dim γ U = Except.error (PyErr.unboundLocalError ("res"))
    ∧ F_v dim γ μ Pr U gU = Except.ok none
    ∧ F_v_adiabatic dim μ U gU = Except.ok none := by
  refine ⟨?_, ?_, ?_⟩ <;> simp [F_c, F_v, F_v_adiabatic, h2, h3]

/-- Concrete witness for claim C2 (as amended) at dimension 1. -/
theorem claim_C2_dimension_branches_witness :
    ((1 : ℕ) ≠ 2 ∧ (1 : ℕ) ≠ 3)
    ∧ (F_c 1 (7 / 5) (fun _ => 1) = Except.error (PyErr.unboundLocalError ("res"))
       ∧ F_v 1 (7 / 5) 1 (18 / 25) (fun _ => 1) (fun _ _ => 0) = Except.ok none
       ∧ F_v_adiabatic 1 1 (fun _ => 1) (fun _ _ => 0) = Except.ok none) :=
  ⟨⟨by decide, by decide⟩,
   claim_C2_dimension_branches 1 (by decide) (by decide) (7 / 5) 1 (18 / 25)
     (fun _ => 1) (fun _ _ => 0)⟩

/-- Claim C3: the interior-penalty scalar carried by the SIPG term
builder that `EllipticOperator.generate_fem_formulation` constructs (and
likewise the one built per adiabatic-wall boundary in
`CompressibleNavierStokesOperator.generate_fem_formulation`) evaluates,
at any cell with local volume `cv` and local facet area `fa`, to
`C_IP * max(degree^2, 1) / (cv / fa)` — the quantities are the symbolic
cell-local `CellVolume`/`FacetArea` nodes, evaluated per cell, not
globally averaged values; and that builder's interior term is part of the
generated elliptic residual. -/
theorem claim_C3_penalty_scalar (C_IP : ℚ) (degree : ℕ) (flux : FluxKind)
    (bcs : List DGBC) (u v : ℕ) (dxO dSO : Option ℕ) (cv fa : ℚ) :
    ((ellipticVt C_IP degree flux u v).sigma).eval cv fa
      = C_IP * ((max (degree ^ 2) 1 : ℕ) : ℚ) / (cv / fa)
    ∧ ((adiabaticVt C_IP degree u v).sigma).eval cv fa
      = C_IP * ((max (degree ^ 2) 1 : ℕ) : ℚ) / (cv / fa)
    ∧ FormTerm.sipgInterior (ellipticVt C_IP degree flux u v) (dSO.getD dSDefault)
        ∈ EllipticOperator_generate_fem_formulation C_IP degree flux bcs u v dxO dSO := by
  refine ⟨rfl, rfl, ?_⟩
  simp [EllipticOperator_generate_fem_formulation, foldl_append_eq]

/-- Claim C4: for every state and gradient, in both handled dimensions,
the specialised adiabatic-wall viscous flux equals the bulk viscous flux
in every row but the last; its last row is `dot(tau[i,:], u)`
componentwise, and the bulk flux's last row exceeds it by exactly the
heat-flux term `K_grad_T` — so the wall flux has zero heat-flux
contribution relative to the bulk flux for the same velocity gradient. -/
theorem claim_C4_adiabatic_wall_flux (γ μ Pr : ℚ) (U : ℕ → ℚ) (gU : ℕ → ℕ → ℚ) :
    (F_v 2 γ μ Pr U gU = Except.ok (some (F_v_mat2 γ μ Pr U gU))
     ∧ F_v_adiabatic 2 μ U gU = Except.ok (some (F_v_adiabatic_mat2 μ U gU))
     ∧ (F_v_mat2 γ μ Pr U gU).take 3 = (F_v_adiabatic_mat2 μ U gU).take 3
     ∧ (F_v_adiabatic_mat2 μ U gU).getD 3 []
         = [dotv 2 (ns_tau 2 μ U gU 0) (ns_u U), dotv 2 (ns_tau 2 μ U gU 1) (ns_u U)]
     ∧ (F_v_mat2 γ μ Pr U gU).getD 3 []
         = [dotv 2 (ns_tau 2 μ U gU 0) (ns_u U) + ns_K_grad_T 2 μ γ Pr U gU 0,
            dotv 2 (ns_tau 2 μ U gU 1) (ns_u U) + ns_K_grad_T 2 μ γ Pr U gU 1])
    ∧ (F_v 3 γ μ Pr U gU = Except.ok (some (F_v_mat3 γ μ Pr U gU))
     ∧ F_v_adiabatic 3 μ U gU = Except.ok (some (F_v_adiabatic_mat3 μ U gU))
     ∧ (F_v_mat3 γ μ Pr U gU).take 4 = (F_v_adiabatic_mat3 μ U gU).take 4
     ∧ (F_v_adiabatic_mat3 μ U gU).getD 4 []
         = [dotv 3 (ns_tau 3 μ U gU 0) (ns_u U), dotv 3 (ns_tau 3 μ U gU 1) (ns_u U),
            dotv 3 (ns_tau 3 μ U gU 2) (ns_u U)]
     ∧ (F_v_mat3 γ μ Pr U gU).getD 4 []
         = [dotv 3 (ns_tau 3 μ U gU 0) (ns_u U) + ns_K_grad_T 3 μ γ Pr U gU 0,
            dotv 3 (ns_tau 3 μ U gU 1) (ns_u U) + ns_K_grad_T 3 μ γ Pr U gU 1,
            dotv 3 (ns_tau 3 μ U gU 2) (ns_u U) + ns_K_grad_T 3 μ γ Pr U gU 2]) :=
  ⟨⟨rfl, rfl, rfl, rfl, rfl⟩, ⟨rfl, rfl, rfl, rfl, rfl⟩⟩

/-- Claim C5: the Navier-Stokes residual is the symbolic sum of the
elliptic (viscous) residual and the Euler (convective) residual over the
same resolved measures, plus, per adiabatic-wall boundary condition, one
convective exterior term and one specialised viscous SIPG exterior term
on that boundary. -/
theorem claim_C5_ns_residual_composition (C_IP : ℚ) (degree : ℕ) (bcs : List DGBC)
    (u v : ℕ) (dxO dSO : Option ℕ) :
    CompressibleNavierStokesOperator_generate_fem_formulation C_IP degree bcs u v dxO dSO
      = EllipticOperator_generate_fem_formulation C_IP degree FluxKind.viscous bcs u v
          (some (dxO.getD dxDefault)) (some (dSO.getD dSDefault))
        ++ HyperbolicOperator_generate_fem_formulation bcs u v
          (some (dxO.getD dxDefault)) (some (dSO.getD dSDefault))
        ++ (adiabatic_wall_bcs bcs).flatMap (fun bc =>
            [FormTerm.convExterior u bc.get_function v bc.get_boundary,
             FormTerm.sipgExterior (adiabaticVt C_IP degree u v)
               bc.get_function bc.get_boundary]) := by
  simp only [CompressibleNavierStokesOperator_generate_fem_formulation,
    foldl_append_eq, List.append_assoc]

/-- Claim C6 counterexample: constructing the dispatcher with block
layout and a single non-list residual specification fails with a bare
`AssertionError` (from `assert isinstance(L, list)`, no message), which
is not a `TypeError` and is not descriptive — refuting the "descriptive
type error" part of the claim (the failure is still immediate). -/
theorem claim_C6_counterexample :
    GenericSNESProblem_init (PyObj.listV [0]) (PyObj.formV 0) (PyObj.formV 1)
      [] [] MatrixType.block false = Except.error PyErr.assertionError
    ∧ PyErr.assertionError.isTypeError = false := ⟨rfl, rfl⟩

/-- Claim C6 as amended: for every construction of the dispatcher with a
block or nest layout and a Jacobian (`a`) or residual (`L`) specification
that is not a list, construction fails immediately inside `__init__` —
the mismatch is never deferred to assembly time — but with a bare
`AssertionError` carrying no message, not with a descriptive type
error. -/
theorem claim_C6_init_rejects_nonlist (a L P : PyObj) (bcs soln_vars : List ℕ)
    (assemble_type : MatrixType) (use_preconditioner : Bool)
    (hlay : assemble_type ≠ MatrixType.monolithic)
    (hmis : a.isList = false ∨ L.isList = false) :
    GenericSNESProblem_init a L P bcs soln_vars assemble_type use_preconditioner
      = Except.error PyErr.assertionError := by
  unfold GenericSNESProblem_init
  rcases hmis with h | h
  · simp [hlay, h]
  · cases ha : a.isList <;> simp [hlay, ha, h]

/-- Concrete witness for claim C6 (as amended): block layout with a
plain-form residual specification. -/
theorem claim_C6_init_rejects_nonlist_witness :
    (MatrixType.block ≠ MatrixType.monolithic
      ∧ ((PyObj.listV [0]).isList = false ∨ (PyObj.formV 2).isList = false))
    ∧ GenericSNESProblem_init (PyObj.listV [0]) (PyObj.formV 2) (PyObj.formV 1) [] []
        MatrixType.block false = Except.error PyErr.assertionError :=
  ⟨⟨by decide, Or.inr (by decide)⟩,
   claim_C6_init_rejects_nonlist (PyObj.listV [0]) (PyObj.formV 2) (PyObj.formV 1)
     [] [] MatrixType.block false (by decide) (Or.inr (by decide))⟩

/-- Lemma: `mapM` of an everywhere-successful computation over `Except`. -/
theorem mapM_ok {α β : Type} (f : α → β) :
    ∀ (xs : List α),
      xs.mapM (fun x => (Except.ok (f x) : Except PyErr β)) = Except.ok (xs.map f) := by
  intro xs
  induction xs with
  | nil => rfl
  | cons x tl ih => rw [List.mapM_cons, ih]; rfl

/-- Claim C7: for lists `F` (length n) and `u` (length m), with the
default `du = None`, `derivative_block` returns the n-by-m matrix whose
`(i, j)` entry is the Gateaux derivative of `F[i]` with respect to
`u[j]` after algebra lowering and derivative application, with every
symbolically empty derivative replaced by `None` (`derivEntry`); a single
form short-circuits to the plain `ufl.derivative`; a non-list non-form
`F`, and a non-list `u`, each raise a `TypeError`. -/
theorem claim_C7_derivative_block {Form Coeff Arg CD : Type}
    (ops : UflOps Form Coeff Arg CD) (cd : Option CD) :
    (∀ (Fs : List Form) (us : List Coeff),
      derivative_block ops (FDyn.listD Fs) (UDyn.listD us) DuDyn.noneD cd
        = Except.ok (DerivBlockResult.matrix
            (Fs.map (fun Fi => us.map (fun uj => derivEntry ops cd Fi uj none)))))
    ∧ (∀ (f : Form) (u : UDyn Coeff) (du : DuDyn Arg),
      derivative_block ops (FDyn.formD f) u du cd
        = Except.ok (DerivBlockResult.single (ops.derivative f u du cd)))
    ∧ (∀ (s : String) (u : UDyn Coeff) (du : DuDyn Arg),
      derivative_block ops (FDyn.otherD s) u du cd
        = Except.error (PyErr.typeError ("Expecting F to be a list of Forms.")))
    ∧ (∀ (Fs : List Form) (c : Coeff) (du : DuDyn Arg),
      derivative_block ops (FDyn.listD Fs) (UDyn.coeffD c) du cd
        = Except.error (PyErr.typeError ("Expecting u to be a list of Coefficients.")))
    ∧ (∀ (Fs : List Form) (s : String) (du : DuDyn Arg),
      derivative_block ops (FDyn.listD Fs) (UDyn.otherD s) du cd
        = Except.error (PyErr.typeError ("Expecting u to be a list of Coefficients."))) := by
  refine ⟨?_, fun f u du => rfl, fun s u du => rfl, fun Fs c du => rfl, fun Fs s du => rfl⟩
  intro Fs us
  have hinner : ∀ Fi : Form,
      us.mapM (fun uj => (Except.ok (derivEntry ops cd Fi uj none) : Except PyErr _))
        = Except.ok (us.map (fun uj => derivEntry ops cd Fi uj none)) :=
    fun Fi => mapM_ok (fun uj => derivEntry ops cd Fi uj none) us
  show Except.map DerivBlockResult.matrix
      (Fs.mapM (fun Fi => us.mapM (fun uj => Except.ok (derivEntry ops cd Fi uj none))))
    = _
  rw [show (fun Fi => us.mapM (fun uj =>
        (Except.ok (derivEntry ops cd Fi uj none) : Except PyErr _)))
      = (fun Fi => (Except.ok (us.map (fun uj => derivEntry ops cd Fi uj none))
          : Except PyErr _)) from funext hinner]
  rw [mapM_ok (fun Fi => us.map (fun uj => derivEntry ops cd Fi uj none)) Fs]
  rfl

/-- Assembled contribution used in the concrete nest-layout run: a single
sub-vector contributing the constant 1 each time assembly runs. -/
def demoAsm : List (ℕ → ℚ) → List (ℕ → ℚ) := fun _ => [fun _ => 1]

/-- Lifting contribution of the concrete nest-layout run: zero. -/
def demoLift : List (ℕ → ℚ) → List (ℕ → ℚ) → List (ℕ → ℚ) := fun _ _ => [fun _ => 0]

/-- Model of `set_bc_nest` of the concrete nest-layout run: no boundary rows. -/
def demoSet : List (ℕ → ℚ) → List (ℕ → ℚ) → List (ℕ → ℚ) := fun F _ => F

/-- Iterate used in the concrete nest-layout run. -/
def demoX : List (ℕ → ℚ) := [fun _ => 0]

/-- Initial state of the concrete nest-layout run: zero residual. -/
def demoState : NestState := { soln := [fun _ => 0], F := [fun _ => 0] }

/-- Claim C8: repeated residual evaluation at an unchanged iterate.  For
the monolithic and block layouts the output vector is zeroed before each
assembly, so a second call reproduces the first call's output exactly,
for every choice of the external primitives.  For the nest layout the
claim FAILS on the code: `F_nest` never zeroes `F`, so assembly
accumulates — in the concrete run the first call leaves residual value 1
and the second call leaves 2. -/
theorem claim_C8_residual_idempotence :
    (∀ (gsync gaccum asmV : (ℕ → ℚ) → (ℕ → ℚ))
        (liftV setbc : (ℕ → ℚ) → (ℕ → ℚ) → (ℕ → ℚ)) (x : ℕ → ℚ) (s : MonoState),
      (F_mono gsync gaccum asmV liftV setbc x
          (F_mono gsync gaccum asmV liftV setbc x s)).F
        = (F_mono gsync gaccum asmV liftV setbc x s).F)
    ∧ (∀ (gsync : (ℕ → ℚ) → (ℕ → ℚ)) (asmB : List BlockVar → (ℕ → ℚ) → (ℕ → ℚ))
        (x : ℕ → ℚ) (s : BlockState),
      (F_block gsync asmB x (F_block gsync asmB x s)).F = (F_block gsync asmB x s).F)
    ∧ ((F_nest id id demoAsm demoLift demoSet id demoX demoState).F.headI 0 = 1
       ∧ (F_nest id id demoAsm demoLift demoSet id demoX
            (F_nest id id demoAsm demoLift demoSet id demoX demoState)).F.headI 0 = 2) := by
  refine ⟨fun gsync gaccum asmV liftV setbc x s => rfl, ?_, ?_, ?_⟩
  · intro gsync asmB x s
    show (fun i => 0 + asmB (blockCopy gsync (gsync x)
          (blockCopy gsync (gsync x) s.soln 0) 0) (gsync x) i) = _
    rw [blockCopy_idem]
    rfl
  · norm_num [F_nest, demoAsm, demoLift, demoSet, demoX, demoState]
  · norm_num [F_nest, demoAsm, demoLift, demoSet, demoX, demoState]

/-- Claim C9: for the flux `F1` with `F_v(u, grad_u) = grad_u` exactly,
the homogeneity tensor (after derivative simplification) is the identity
on the gradient space — entry `(i,k,j,l)` is the Kronecker delta — and
`hyper_tensor_product(G, grad(u))` equals `dot(Identity, grad(u))`, i.e.
reproduces `grad(u)` entrywise, for every number of flux components `m`
(scalar `m = 1` and vector-valued alike) and every spatial dimension
`d`. -/
theorem claim_C9_linear_homogeneity_tensor (i k j l m d : ℕ) (g : ℕ → ℕ → ℚ)
    (him : i < m) (hkd : k < d) :
    homogeneity_tensor F1_flux i k j l
        = (if i = j ∧ k = l then GExpr.const 1 else GExpr.const 0)
    ∧ hyper_tensor_product m d
        (fun a b c e => GExpr.evalG g (homogeneity_tensor F1_flux a b c e)) g i k
      = g i k := by
  constructor
  · rfl
  · have hstep : ∀ a b, GExpr.evalG g (homogeneity_tensor F1_flux i k a b)
        = if i = a ∧ k = b then (1 : ℚ) else 0 := by
      intro a b
      simp [homogeneity_tensor, F1_flux, GExpr.diffG, apply_ite (GExpr.evalG g),
        GExpr.evalG]
    have hrow : ∀ a, ∑ b in Finset.range d,
        (if i = a ∧ k = b then (1 : ℚ) else 0) * g a b
        = if i = a then g a k else 0 := by
      intro a
      rcases eq_or_ne i a with hia | hia
      · subst hia
        simp only [true_and, ite_mul, one_mul, zero_mul]
        rw [Finset.sum_ite_eq]
        simp [Finset.mem_range.mpr hkd]
      · simp [hia]
    unfold hyper_tensor_product
    calc ∑ a in Finset.range m, ∑ b in Finset.range d,
          (fun a b c e => GExpr.evalG g (homogeneity_tensor F1_flux a b c e)) i k a b * g a b
        = ∑ a in Finset.range m, ∑ b in Finset.range d,
            (if i = a ∧ k = b then (1 : ℚ) else 0) * g a b := by
          refine Finset.sum_congr rfl (fun a _ => Finset.sum_congr rfl (fun b _ => ?_))
          show GExpr.evalG g (homogeneity_tensor F1_flux i k a b) * g a b = _
          rw [hstep a b]
      _ = ∑ a in Finset.range m, (if i = a then g a k else 0) :=
          Finset.sum_congr rfl (fun a _ => hrow a)
      _ = g i k := by
          rw [Finset.sum_ite_eq]
          simp [Finset.mem_range.mpr him]

/-- Concrete witness for claim C9 at `m = 2` flux components, `d = 3`
spatial dimensions, entry `(1, 2)`. -/
theorem claim_C9_linear_homogeneity_tensor_witness :
    ((1 : ℕ) < 2 ∧ (2 : ℕ) < 3)
    ∧ (homogeneity_tensor F1_flux 1 2 1 2
          = (if (1 : ℕ) = 1 ∧ (2 : ℕ) = 2 then GExpr.const 1 else GExpr.const 0)
       ∧ hyper_tensor_product 2 3
           (fun a b c e => GExpr.evalG (fun p q => (p * 10 + q : ℚ))
             (homogeneity_tensor F1_flux a b c e))
           (fun p q => (p * 10 + q : ℚ)) 1 2
         = (fun p q => (p * 10 + q : ℚ)) 1 2) :=
  ⟨⟨by decide, by decide⟩,
   claim_C9_linear_homogeneity_tensor 1 2 1 2 2 3 (fun p q => (p * 10 + q : ℚ))
     (by decide) (by decide)⟩

/-- Claim C10: each Jacobian callback never reads the incoming iterate
`x` (the result is the same for any two iterates), never writes the
solution variables or the residual vector, and only zeroes, reassembles
from the solution variables' current state, and finalizes the Jacobian —
and the preconditioner operator exactly when `use_preconditioner` is set
— for all three layouts (the block and nest assemblies passing boundary
diagonal value 1.0). -/
theorem claim_C10_jacobian_frame (σ φ μ ξ : Type) (zeroE finalM : μ → μ)
    (asmA1 asmP1 : μ → σ → μ) (asmA2 asmP2 asmA3 asmP3 : μ → σ → ℚ → μ)
    (use_preconditioner : Bool) (s : JacState σ φ μ) (x y : ξ) :
    (J_mono zeroE asmA1 finalM asmP1 use_preconditioner x s
        = J_mono zeroE asmA1 finalM asmP1 use_preconditioner y s
     ∧ (J_mono zeroE asmA1 finalM asmP1 use_preconditioner x s).soln = s.soln
     ∧ (J_mono zeroE asmA1 finalM asmP1 use_preconditioner x s).F = s.F
     ∧ (J_mono zeroE asmA1 finalM asmP1 use_preconditioner x s).J
         = finalM (asmA1 (zeroE s.J) s.soln)
     ∧ (J_mono zeroE asmA1 finalM asmP1 use_preconditioner x s).P
         = (if use_preconditioner then finalM (asmP1 (zeroE s.P) s.soln) else s.P))
    ∧ (J_block zeroE asmA2 finalM asmP2 use_preconditioner x s
        = J_block zeroE asmA2 finalM asmP2 use_preconditioner y s
     ∧ (J_block zeroE asmA2 finalM asmP2 use_preconditioner x s).soln = s.soln
     ∧ (J_block zeroE asmA2 finalM asmP2 use_preconditioner x s).F = s.F
     ∧ (J_block zeroE asmA2 finalM asmP2 use_preconditioner x s).J
         = finalM (asmA2 (zeroE s.J) s.soln 1)
     ∧ (J_block zeroE asmA2 finalM asmP2 use_preconditioner x s).P
         = (if use_preconditioner then finalM (asmP2 (zeroE s.P) s.soln 1) else s.P))
    ∧ (J_nest zeroE asmA3 finalM asmP3 use_preconditioner x s
        = J_nest zeroE asmA3 finalM asmP3 use_preconditioner y s
     ∧ (J_nest zeroE asmA3 finalM asmP3 use_preconditioner x s).soln = s.soln
     ∧ (J_nest zeroE asmA3 finalM asmP3 use_preconditioner x s).F = s.F
     ∧ (J_nest zeroE asmA3 finalM asmP3 use_preconditioner x s).J
         = finalM (asmA3 (zeroE s.J) s.soln 1)
     ∧ (J_nest zeroE asmA3 finalM asmP3 use_preconditioner x s).P
         = (if use_preconditioner then finalM (asmP3 (zeroE s.P) s.soln 1) else s.P)) :=
  ⟨⟨rfl, rfl, rfl, rfl, rfl⟩, ⟨rfl, rfl, rfl, rfl, rfl⟩, ⟨rfl, rfl, rfl, rfl, rfl⟩⟩

end DolfinDG
